import Mathlib

/-!
Verification of the consultation-report application (apps/reports):
the data model (`ConsultationReport`), the form field cleaners
(`forms.py`), the PDF body and page decorations (`utils.py`) and the
POST handler (`views.py`), shallowly embedded as executable Lean
definitions, with theorems settling the specification's claims.
-/

namespace Reports

/-- A calendar date as Python's `datetime.date` exposes it:
`year`, `month`, `day` fields. -/
structure SimpleDate where
  year : Nat
  month : Nat
  day : Nat
deriving DecidableEq, Repr

/-- Lexicographic order on dates, as Python compares `date` values. -/
def dateLe (a b : SimpleDate) : Prop :=
  a.year < b.year ∨ (a.year = b.year ∧
    (a.month < b.month ∨ (a.month = b.month ∧ a.day ≤ b.day)))

instance (a b : SimpleDate) : Decidable (dateLe a b) := by
  unfold dateLe; infer_instance

/-- `utils.calculate_age`: `age = today.year - dob.year`, decremented by
one when `today.month < dob.month or (today.month == dob.month and
today.day < dob.day)`.  The source reads `today` from the clock
(`datetime.now().date()`); the embedding passes it explicitly. -/
def calculate_age (today dob : SimpleDate) : Int :=
  let age : Int := (today.year : Int) - (dob.year : Int)
  if today.month < dob.month ∨ (today.month = dob.month ∧ today.day < dob.day) then
    age - 1
  else
    age

/-- C8: `calculate_age` returns `today.year - dob.year` when
`(today.month, today.day)` is on or after `(dob.month, dob.day)`,
`today.year - dob.year - 1` otherwise, and is non-negative whenever
`dob` is not after `today`. -/
theorem calculate_age_spec (today dob : SimpleDate) :
    ((dob.month < today.month ∨ (dob.month = today.month ∧ dob.day ≤ today.day)) →
      calculate_age today dob = (today.year : Int) - (dob.year : Int))
    ∧ (¬ (dob.month < today.month ∨ (dob.month = today.month ∧ dob.day ≤ today.day)) →
      calculate_age today dob = (today.year : Int) - (dob.year : Int) - 1)
    ∧ (dateLe dob today → 0 ≤ calculate_age today dob) := by
  unfold calculate_age dateLe
  dsimp only
  refine ⟨?_, ?_, ?_⟩ <;> intro h <;> split <;> omega

/-- Concrete instance of `calculate_age_spec`: a birthday already past
this year, so the age is the plain year difference and non-negative. -/
theorem calculate_age_spec_witness :
    calculate_age ⟨2026, 10, 12⟩ ⟨1990, 5, 3⟩ = 36
    ∧ 0 ≤ calculate_age ⟨2026, 10, 12⟩ ⟨1990, 5, 3⟩ := by
  refine ⟨?_, (calculate_age_spec ⟨2026, 10, 12⟩ ⟨1990, 5, 3⟩).2.2 (by decide)⟩
  have h := (calculate_age_spec ⟨2026, 10, 12⟩ ⟨1990, 5, 3⟩).1 (by decide)
  simpa using h

/-! ## Form field cleaners (`apps/reports/forms.py`) -/

/-- ASCII digit, the `\d` class of the source's phone regex restricted
to the ASCII inputs the form sees. -/
def isAsciiDigit (c : Char) : Bool :=
  '0' ≤ c ∧ c ≤ '9'

/-- Whitespace as matched by the regex class `\s`. -/
def isSpaceChar (c : Char) : Bool :=
  c = ' ' ∨ c = '\t' ∨ c = '\n' ∨ c = '\x0b' ∨ c = '\x0c' ∨ c = '\r'

/-- The chained `contact.replace(' ', '').replace('-', '').replace('(',
'').replace(')', '')` of `_is_valid_contact`: delete spaces, dashes and
parentheses. -/
def stripContact (s : String) : String :=
  String.mk (s.data.filter fun c => ¬ (c = ' ' ∨ c = '-' ∨ c = '(' ∨ c = ')'))

/-- First alternative of the phone regex, `^[\+]?[1-9][\d]{0,15}$`:
an optional `+`, a digit 1-9, then up to 15 more digits. -/
def phoneAlt1 : List Char → Bool
  | [] => false
  | c :: cs =>
    match (if c = '+' then cs else c :: cs) with
    | [] => false
    | d :: ds => ('1' ≤ d && d ≤ '9') && (decide (ds.length ≤ 15) && ds.all isAsciiDigit)

/-- Second alternative of the phone regex, `^[\d\s\-\(\)]{10,}$`: at
least ten characters, each a digit, whitespace, dash or parenthesis. -/
def phoneAlt2 (l : List Char) : Bool :=
  decide (10 ≤ l.length) &&
    l.all fun c => isAsciiDigit c || isSpaceChar c || c = '-' || c = '(' || c = ')'

/-- The full phone pattern of `_is_valid_contact` (both regex
alternatives are anchored at both ends). -/
def phone_pattern_match (s : String) : Bool :=
  phoneAlt1 s.data ∨ phoneAlt2 s.data

/-- `ConsultationReportForm._is_valid_contact`: accept when
`validate_email` succeeds or the phone pattern matches the contact with
spaces, dashes and parentheses deleted.  Django's `validate_email` is
external scaffolding, passed in as the oracle `validateEmail`. -/
def is_valid_contact (validateEmail : String → Bool) (contact : String) : Bool :=
  validateEmail contact ∨ phone_pattern_match (stripContact contact)

/-- The contact error message raised by both contact cleaners. -/
def contactError : String := "Please enter a valid email address or phone number."

/-- `ConsultationReportForm.clean_physician_contact`: raise a
`ValidationError` for a non-empty contact that `_is_valid_contact`
rejects, otherwise return the value unchanged. -/
def clean_physician_contact (validateEmail : String → Bool) (contact : String) :
    Except String String :=
  if contact ≠ "" ∧ ¬ is_valid_contact validateEmail contact then
    .error contactError
  else
    .ok contact

/-- `ConsultationReportForm.clean_patient_contact`: same rule as the
physician contact cleaner. -/
def clean_patient_contact (validateEmail : String → Bool) (contact : String) :
    Except String String :=
  if contact ≠ "" ∧ ¬ is_valid_contact validateEmail contact then
    .error contactError
  else
    .ok contact

/-- Spec-side reading of the first phone alternative: the character
list decomposes as an optional leading `+`, a digit 1-9, then at most
15 further digits. -/
def SpecPhone1 (l : List Char) : Prop :=
  ∃ opt d rest, l = opt ++ d :: rest ∧ (opt = [] ∨ opt = ['+'])
    ∧ '1' ≤ d ∧ d ≤ '9' ∧ rest.length ≤ 15 ∧ ∀ c ∈ rest, isAsciiDigit c

/-- Spec-side reading of the second phone alternative: at least ten
characters, all drawn from digits, whitespace, dashes, parentheses. -/
def SpecPhone2 (l : List Char) : Prop :=
  10 ≤ l.length
    ∧ ∀ c ∈ l, isAsciiDigit c ∨ isSpaceChar c ∨ c = '-' ∨ c = '(' ∨ c = ')'

instance (l : List Char) : Decidable (SpecPhone2 l) := by
  unfold SpecPhone2; infer_instance

/-- `phoneAlt1` computes exactly `SpecPhone1`. -/
theorem phoneAlt1_iff (l : List Char) : phoneAlt1 l = true ↔ SpecPhone1 l := by
  unfold SpecPhone1
  constructor
  · intro h
    cases l with
    | nil => simp [phoneAlt1] at h
    | cons c cs =>
      simp only [phoneAlt1] at h
      by_cases hc : c = '+'
      · subst hc
        rw [if_pos rfl] at h
        cases cs with
        | nil => simp at h
        | cons d ds =>
          simp only [Bool.and_eq_true, decide_eq_true_eq, List.all_eq_true] at h
          exact ⟨['+'], d, ds, rfl, Or.inr rfl, h.1.1, h.1.2, h.2.1, h.2.2⟩
      · rw [if_neg hc] at h
        simp only [Bool.and_eq_true, decide_eq_true_eq, List.all_eq_true] at h
        exact ⟨[], c, cs, rfl, Or.inl rfl, h.1.1, h.1.2, h.2.1, h.2.2⟩
  · rintro ⟨opt, d, rest, hl, hopt, h1, h9, hlen, hdig⟩
    subst hl
    rcases hopt with hopt | hopt <;> subst hopt
    · have hd : ¬ d = '+' := by
        intro hd
        rw [hd] at h1
        exact absurd h1 (by decide)
      show phoneAlt1 ([] ++ d :: rest) = true
      simp only [List.nil_append]
      simp only [phoneAlt1]
      rw [if_neg hd]
      simp only [Bool.and_eq_true, decide_eq_true_eq, List.all_eq_true]
      exact ⟨⟨h1, h9⟩, hlen, hdig⟩
    · show phoneAlt1 (['+'] ++ d :: rest) = true
      simp only [List.cons_append, List.nil_append]
      simp only [phoneAlt1]
      simp only [if_true]
      simp only [Bool.and_eq_true, decide_eq_true_eq, List.all_eq_true]
      exact ⟨⟨h1, h9⟩, hlen, hdig⟩

/-- `phoneAlt2` computes exactly `SpecPhone2`. -/
theorem phoneAlt2_iff (l : List Char) : phoneAlt2 l = true ↔ SpecPhone2 l := by
  unfold phoneAlt2 SpecPhone2
  simp [List.all_eq_true, or_assoc]

/-- C4: a non-empty contact is accepted (returned unchanged) by
`clean_physician_contact` and `clean_patient_contact` iff it is a valid
email or, after deleting spaces, dashes and parentheses, it matches one
of the two phone alternatives; otherwise a `ValidationError` is raised,
and an empty value is always accepted. -/
theorem contact_cleaners_spec (validateEmail : String → Bool) (contact : String)
    (hne : contact ≠ "") :
    (clean_physician_contact validateEmail contact = .ok contact ↔
      (validateEmail contact = true ∨ SpecPhone1 (stripContact contact).data
        ∨ SpecPhone2 (stripContact contact).data))
    ∧ (clean_physician_contact validateEmail contact ≠ .ok contact →
        clean_physician_contact validateEmail contact = .error contactError)
    ∧ clean_patient_contact validateEmail contact
        = clean_physician_contact validateEmail contact
    ∧ clean_physician_contact validateEmail "" = .ok ""
    ∧ clean_patient_contact validateEmail "" = .ok "" := by
  have hv : is_valid_contact validateEmail contact = true ↔
      (validateEmail contact = true ∨ SpecPhone1 (stripContact contact).data
        ∨ SpecPhone2 (stripContact contact).data) := by
    unfold is_valid_contact phone_pattern_match
    rw [← phoneAlt1_iff, ← phoneAlt2_iff]
    simp [Bool.or_eq_true, or_assoc]
  refine ⟨?_, ?_, rfl, rfl, rfl⟩
  · unfold clean_physician_contact
    by_cases h : is_valid_contact validateEmail contact = true
    · rw [if_neg (by tauto)]
      exact ⟨fun _ => hv.mp h, fun _ => rfl⟩
    · rw [if_pos ⟨hne, h⟩]
      exact ⟨fun habs => Except.noConfusion habs, fun hr => absurd (hv.mpr hr) h⟩
  · unfold clean_physician_contact
    split
    · simp
    · simp

/-- Concrete instance of `contact_cleaners_spec`: a ten-digit phone
number with no email match is accepted through the second phone
alternative. -/
theorem contact_cleaners_spec_witness :
    clean_physician_contact (fun _ => false) "012-345-6789" = .ok "012-345-6789" :=
  (contact_cleaners_spec (fun _ => false) "012-345-6789" (by decide)).1.mpr
    (Or.inr (Or.inr (by decide)))

/-- `ConsultationReportForm.clean_chief_complaint`: raise a
`ValidationError` when the non-empty value exceeds 5000 characters,
otherwise return it unchanged. -/
def clean_chief_complaint (complaint : String) : Except String String :=
  if complaint ≠ "" ∧ 5000 < complaint.length then
    .error "Chief complaint cannot exceed 5000 characters."
  else
    .ok complaint

/-- `ConsultationReportForm.clean_consultation_note`: raise a
`ValidationError` when the non-empty value exceeds 5000 characters,
otherwise return it unchanged. -/
def clean_consultation_note (note : String) : Except String String :=
  if note ≠ "" ∧ 5000 < note.length then
    .error "Consultation note cannot exceed 5000 characters."
  else
    .ok note

/-- C5: both free-text cleaners raise exactly when the value's length
exceeds 5000 characters and otherwise return the value unchanged. -/
theorem text_length_cleaners_spec (s : String) :
    ((∃ e, clean_chief_complaint s = .error e) ↔ 5000 < s.length)
    ∧ ((∃ e, clean_consultation_note s = .error e) ↔ 5000 < s.length)
    ∧ (s.length ≤ 5000 → clean_chief_complaint s = .ok s)
    ∧ (s.length ≤ 5000 → clean_consultation_note s = .ok s) := by
  have hne : 5000 < s.length → s ≠ "" := by
    intro h he
    rw [he] at h
    simp [String.length] at h
  unfold clean_chief_complaint clean_consultation_note
  refine ⟨?_, ?_, ?_, ?_⟩
  · constructor
    · rintro ⟨e, he⟩
      by_contra hlen
      rw [if_neg (by tauto)] at he
      exact Except.noConfusion he
    · intro h
      rw [if_pos ⟨hne h, h⟩]
      exact ⟨_, rfl⟩
  · constructor
    · rintro ⟨e, he⟩
      by_contra hlen
      rw [if_neg (by tauto)] at he
      exact Except.noConfusion he
    · intro h
      rw [if_pos ⟨hne h, h⟩]
      exact ⟨_, rfl⟩
  · intro h
    rw [if_neg (by omega)]
  · intro h
    rw [if_neg (by omega)]

/-- Concrete instance of `text_length_cleaners_spec`: a short complaint
passes both cleaners. -/
theorem text_length_cleaners_spec_witness :
    clean_chief_complaint "headache" = .ok "headache"
    ∧ clean_consultation_note "rest" = .ok "rest" :=
  ⟨(text_length_cleaners_spec "headache").2.2.1 (by decide),
   (text_length_cleaners_spec "rest").2.2.2 (by decide)⟩

/-- An uploaded file as the form cleaner observes it: a name, a size in
bytes, and the `content_type` attribute when the upload carries one
(`hasattr(logo, 'content_type')`). -/
structure UploadedFile where
  name : String
  size : Nat
  content_type : Option String
deriving DecidableEq, Repr

/-- The `allowed_types` list of `clean_clinic_logo`. -/
def allowed_types : List String :=
  ["image/jpeg", "image/png", "image/gif", "image/webp"]

/-- The content-type test of `clean_clinic_logo`: true when the file
carries a `content_type` that is not an allowed image type
(`hasattr(logo, 'content_type') and logo.content_type not in
allowed_types`). -/
def content_type_rejected (f : UploadedFile) : Bool :=
  match f.content_type with
  | some ct => ct ∉ allowed_types
  | none => false

/-- `ConsultationReportForm.clean_clinic_logo`: an absent logo passes;
otherwise reject a file larger than 5 MB, then reject a file whose
present `content_type` is not an allowed image type, else return the
file unchanged. -/
def clean_clinic_logo (logo : Option UploadedFile) : Except String (Option UploadedFile) :=
  match logo with
  | none => .ok none
  | some f =>
    if 5 * 1024 * 1024 < f.size then
      .error "File size cannot exceed 5MB."
    else if content_type_rejected f then
      .error "Please upload a valid image file (JPEG, PNG, GIF, or WebP)."
    else
      .ok (some f)

/-- C6: the logo is optional, and an uploaded file is rejected exactly
when it exceeds 5 MB or carries a content type outside the allowed
image types; otherwise it is returned unchanged. -/
theorem clean_clinic_logo_spec (f : UploadedFile) :
    clean_clinic_logo none = .ok none
    ∧ ((∃ e, clean_clinic_logo (some f) = .error e) ↔
        (5 * 1024 * 1024 < f.size
          ∨ ∃ ct, f.content_type = some ct ∧ ct ∉ allowed_types))
    ∧ (¬ (5 * 1024 * 1024 < f.size
          ∨ ∃ ct, f.content_type = some ct ∧ ct ∉ allowed_types) →
        clean_clinic_logo (some f) = .ok (some f)) := by
  have hct : content_type_rejected f = true ↔
      ∃ ct, f.content_type = some ct ∧ ct ∉ allowed_types := by
    unfold content_type_rejected
    cases f.content_type with
    | none => simp
    | some ct => simp
  refine ⟨rfl, ?_, ?_⟩
  · simp only [clean_clinic_logo]
    constructor
    · rintro ⟨e, he⟩
      by_cases hs : 5 * 1024 * 1024 < f.size
      · exact Or.inl hs
      · rw [if_neg hs] at he
        by_cases hc : content_type_rejected f = true
        · exact Or.inr (hct.mp hc)
        · rw [if_neg hc] at he
          exact Except.noConfusion he
    · intro h
      rcases h with hs | hc
      · rw [if_pos hs]
        exact ⟨_, rfl⟩
      · by_cases hs : 5 * 1024 * 1024 < f.size
        · rw [if_pos hs]
          exact ⟨_, rfl⟩
        · rw [if_neg hs, if_pos (hct.mpr hc)]
          exact ⟨_, rfl⟩
  · intro h
    push_neg at h
    simp only [clean_clinic_logo]
    rw [if_neg (by omega), if_neg (by rw [hct]; push_neg; exact h.2)]

/-- Concrete instance of `clean_clinic_logo_spec`: a small PNG upload
passes the cleaner unchanged. -/
theorem clean_clinic_logo_spec_witness :
    clean_clinic_logo (some ⟨"logo.png", 1024, some "image/png"⟩)
      = .ok (some ⟨"logo.png", 1024, some "image/png"⟩) :=
  (clean_clinic_logo_spec ⟨"logo.png", 1024, some "image/png"⟩).2.2 (by decide)

/-! ## Data model (`apps/reports/models.py`) -/

/-- `ConsultationReport`: the single flat record type.  `clinic_logo`
holds the stored file name when a logo was uploaded (the model field is
`blank=True, null=True`). -/
structure ConsultationReport where
  clinic_name : String
  clinic_logo : Option String
  physician_name : String
  physician_contact : String
  patient_first_name : String
  patient_last_name : String
  patient_dob : SimpleDate
  patient_contact : String
  chief_complaint : String
  consultation_note : String
deriving DecidableEq, Repr

/-- `ConsultationReport.patient_full_name`:
`f"{patient_first_name} {patient_last_name}"`. -/
def patient_full_name (r : ConsultationReport) : String :=
  r.patient_first_name ++ " " ++ r.patient_last_name

/-- `strftime`'s zero-padded two-digit field (`%m`, `%d`). -/
def pad2 (n : Nat) : String :=
  if n < 10 then "0" ++ toString n else toString n

/-- `patient_dob.strftime('%Y%m%d')`. -/
def dob_compact (d : SimpleDate) : String :=
  toString d.year ++ pad2 d.month ++ pad2 d.day

/-- `ConsultationReport.pdf_filename`:
`f"CR_{patient_last_name}_{patient_first_name}_{dob_str}.pdf"`. -/
def pdf_filename (r : ConsultationReport) : String :=
  "CR_" ++ r.patient_last_name ++ "_" ++ r.patient_first_name ++ "_"
    ++ dob_compact r.patient_dob ++ ".pdf"

/-- `strftime('%B')`: the English month name. -/
def monthName : Nat → String
  | 1 => "January"
  | 2 => "February"
  | 3 => "March"
  | 4 => "April"
  | 5 => "May"
  | 6 => "June"
  | 7 => "July"
  | 8 => "August"
  | 9 => "September"
  | 10 => "October"
  | 11 => "November"
  | 12 => "December"
  | _ => ""

/-- `patient_dob.strftime('%B %d, %Y')`, the long date shown in the
Patient Information section. -/
def dob_long (d : SimpleDate) : String :=
  monthName d.month ++ " " ++ pad2 d.day ++ ", " ++ toString d.year

/-! ## PDF body (`utils.generate_pdf_report`) -/

/-- The named paragraph styles created in `generate_pdf_report`. -/
inductive StyleName where
  | customTitle
  | sectionHeader
  | contentStyle
  | boxStyle
  | endStyle
deriving DecidableEq, Repr

/-- A platypus flowable appended to the `story`. -/
inductive Flowable where
  | para (text : String) (style : StyleName)
  | spacer (width height : Nat)
  | pageBreak
deriving DecidableEq, Repr

/-- Python's `text.replace('\n', '<br/>')` applied to the free-text
fields before they become paragraphs. -/
def newline_to_br (s : String) : String :=
  String.join (s.data.map fun c => if c = '\n' then "<br/>" else String.singleton c)

/-- The `story` list built by `generate_pdf_report`, in source order:
title, clinic section, physician section, patient section, chief
complaint, page break, consultation note, end-of-report block.  The
source reads `today` from the clock inside `calculate_age`; the
embedding passes it explicitly, alongside the formatted timestamp. -/
def build_story (r : ConsultationReport) (today : SimpleDate) (timestamp : String) :
    List Flowable :=
  [ Flowable.para "CONSULTATION REPORT" StyleName.customTitle,
    Flowable.spacer 1 20,
    Flowable.para "Clinic Information" StyleName.sectionHeader,
    Flowable.spacer 1 5,
    Flowable.para ("<b>Clinic Name:</b> " ++ r.clinic_name) StyleName.contentStyle,
    Flowable.para ("<b>Report Generated:</b> " ++ timestamp) StyleName.contentStyle,
    Flowable.spacer 1 20,
    Flowable.para "Physician Information" StyleName.sectionHeader,
    Flowable.spacer 1 5,
    Flowable.para ("<b>Physician Name:</b> " ++ r.physician_name) StyleName.contentStyle,
    Flowable.para ("<b>Physician Contact:</b> " ++ r.physician_contact) StyleName.contentStyle,
    Flowable.spacer 1 20,
    Flowable.para "Patient Information" StyleName.sectionHeader,
    Flowable.spacer 1 5,
    Flowable.para ("<b>Patient Name:</b> " ++ patient_full_name r) StyleName.contentStyle,
    Flowable.para ("<b>Date of Birth:</b> " ++ dob_long r.patient_dob) StyleName.contentStyle,
    Flowable.para ("<b>Age:</b> " ++ toString (calculate_age today r.patient_dob) ++ " years")
      StyleName.contentStyle,
    Flowable.para ("<b>Patient Contact:</b> " ++ r.patient_contact) StyleName.contentStyle,
    Flowable.spacer 1 30,
    Flowable.para "Chief Complaint" StyleName.sectionHeader,
    Flowable.para (newline_to_br r.chief_complaint) StyleName.boxStyle,
    Flowable.spacer 1 20,
    Flowable.pageBreak,
    Flowable.para "Consultation Note" StyleName.sectionHeader,
    Flowable.para (newline_to_br r.consultation_note) StyleName.boxStyle,
    Flowable.spacer 1 50,
    Flowable.para ("<b>--- End of Consultation Report ---</b><br/><br/>"
      ++ "<i>This document was electronically generated and is valid without signature.</i>")
      StyleName.endStyle ]

/-- The HTTP response assembled at the end of `generate_pdf_report`:
the built document (body flowables plus the timestamp and IP that the
page template stamps into every footer), the content type, and the
`Content-Disposition` header. -/
structure PdfResponse where
  content : List Flowable
  footer_timestamp : String
  footer_ip : String
  content_type : String
  content_disposition : String
deriving DecidableEq, Repr

/-- `utils.generate_pdf_report`: build the story, hand timestamp and
client IP to the page template, and return the PDF as an attachment
download named by `pdf_filename`. -/
def generate_pdf_report (r : ConsultationReport) (today : SimpleDate)
    (timestamp user_ip : String) : PdfResponse :=
  { content := build_story r today timestamp
    footer_timestamp := timestamp
    footer_ip := user_ip
    content_type := "application/pdf"
    content_disposition := "attachment; filename=\"" ++ pdf_filename r ++ "\"" }

/-! ## Page decorations (`utils.ReportDocTemplate.add_page_decorations`) -/

/-- ReportLab's A4 width in points, `210mm * 72 / 25.4`, exactly. -/
def A4w : ℚ := 75600 / 127

/-- ReportLab's A4 height in points, `297mm * 72 / 25.4`, exactly. -/
def A4h : ℚ := 106920 / 127

/-- One canvas drawing call issued while decorating a page. -/
inductive DrawOp where
  | image (path : String) (x y width height : ℚ)
  | text (s : String) (x y : ℚ) (font : String) (size : ℚ) (color : String)
  | line (x1 y1 x2 y2 : ℚ) (color : String) (width : ℚ)
deriving DecidableEq, Repr

/-- True for the logo-drawing call. -/
def isImageOp : DrawOp → Bool
  | .image .. => true
  | _ => false

/-- `ReportDocTemplate.add_page_decorations`, the `onPage` hook of the
single installed page template: draw the logo (only when the record has
one and `os.path.exists` finds its file under `MEDIA_ROOT`), the
centred clinic name, the header rule, the footer timestamp/IP line, the
page number and the footer rule.  File-system presence of the logo
enters as `logo_file_exists`. -/
def add_page_decorations (r : ConsultationReport) (media_root : String)
    (logo_file_exists : Bool) (timestamp user_ip : String) (page_num : Nat) :
    List DrawOp :=
  let header_y : ℚ := A4h - 50
  (if r.clinic_logo.isSome then
    (if logo_file_exists then
      [DrawOp.image (media_root ++ "/" ++ r.clinic_logo.getD "") 72 (header_y - 60) 120 60]
     else [])
   else [])
  ++ [ DrawOp.text r.clinic_name (A4w / 2) (header_y - 30) "Helvetica-Bold" 18 "#1e40af",
       DrawOp.line 72 (header_y - 80) (A4w - 72) (header_y - 80) "#1e40af" 2,
       DrawOp.text ("This report is generated on " ++ timestamp ++ " from " ++ user_ip)
         (A4w / 2) 50 "Helvetica" 9 "#666666",
       DrawOp.text ("Page " ++ toString page_num) (A4w / 2) 35 "Helvetica" 9 "#666666",
       DrawOp.line 72 65 (A4w - 72) 65 "#cccccc" 1 ]

/-- The decorated pages of a built document: ReportLab's
`BaseDocTemplate.build` invokes the installed template's `onPage` hook
(`add_page_decorations`) on every one of the `n` pages it emits, with
the page counter running from 1. -/
def render_pages (r : ConsultationReport) (media_root : String)
    (logo_file_exists : Bool) (timestamp user_ip : String) (n : Nat) :
    List (List DrawOp) :=
  (List.range n).map fun i =>
    add_page_decorations r media_root logo_file_exists timestamp user_ip (i + 1)

/-- True for the `PageBreak()` flowable. -/
def isPageBreak : Flowable → Bool
  | .pageBreak => true
  | _ => false

/-- The shape of a flowable: its constructor and style, with the
substituted text forgotten. -/
inductive FlowShape where
  | para (style : StyleName)
  | spacer (width height : Nat)
  | pageBreak
deriving DecidableEq, Repr

/-- Forget the text of a flowable, keeping its layout shape. -/
def shapeOf : Flowable → FlowShape
  | .para _ s => .para s
  | .spacer w h => .spacer w h
  | .pageBreak => .pageBreak

/-- The texts of the `SectionHeader`-styled paragraphs, in order. -/
def sectionTitles : List Flowable → List String
  | [] => []
  | .para t .sectionHeader :: rest => t :: sectionTitles rest
  | _ :: rest => sectionTitles rest

/-- A sample record used to instantiate hypothesised theorems. -/
def rSample : ConsultationReport :=
  { clinic_name := "Sunrise Clinic"
    clinic_logo := none
    physician_name := "Dr. Smith"
    physician_contact := "0123456789"
    patient_first_name := "Ann"
    patient_last_name := "Lee"
    patient_dob := ⟨1990, 5, 3⟩
    patient_contact := "0123456789"
    chief_complaint := "pain"
    consultation_note := "rest" }

/-- `rSample` with an uploaded clinic logo. -/
def rLogo : ConsultationReport :=
  { rSample with clinic_logo := some "logo.png" }

/-- C3: the story is a two-section report: the chief-complaint section
lies before the single page break and the consultation-note section
after it. -/
theorem story_pagebreak_spec (r : ConsultationReport) (today : SimpleDate) (ts : String) :
    ∃ pre post,
      build_story r today ts = pre ++ Flowable.pageBreak :: post
      ∧ pre.countP (fun f => isPageBreak f) = 0
      ∧ post.countP (fun f => isPageBreak f) = 0
      ∧ Flowable.para "Chief Complaint" StyleName.sectionHeader ∈ pre
      ∧ Flowable.para (newline_to_br r.chief_complaint) StyleName.boxStyle ∈ pre
      ∧ Flowable.para "Consultation Note" StyleName.sectionHeader ∈ post
      ∧ Flowable.para (newline_to_br r.consultation_note) StyleName.boxStyle ∈ post := by
  refine ⟨[ Flowable.para "CONSULTATION REPORT" StyleName.customTitle,
    Flowable.spacer 1 20,
    Flowable.para "Clinic Information" StyleName.sectionHeader,
    Flowable.spacer 1 5,
    Flowable.para ("<b>Clinic Name:</b> " ++ r.clinic_name) StyleName.contentStyle,
    Flowable.para ("<b>Report Generated:</b> " ++ ts) StyleName.contentStyle,
    Flowable.spacer 1 20,
    Flowable.para "Physician Information" StyleName.sectionHeader,
    Flowable.spacer 1 5,
    Flowable.para ("<b>Physician Name:</b> " ++ r.physician_name) StyleName.contentStyle,
    Flowable.para ("<b>Physician Contact:</b> " ++ r.physician_contact) StyleName.contentStyle,
    Flowable.spacer 1 20,
    Flowable.para "Patient Information" StyleName.sectionHeader,
    Flowable.spacer 1 5,
    Flowable.para ("<b>Patient Name:</b> " ++ patient_full_name r) StyleName.contentStyle,
    Flowable.para ("<b>Date of Birth:</b> " ++ dob_long r.patient_dob) StyleName.contentStyle,
    Flowable.para ("<b>Age:</b> " ++ toString (calculate_age today r.patient_dob) ++ " years")
      StyleName.contentStyle,
    Flowable.para ("<b>Patient Contact:</b> " ++ r.patient_contact) StyleName.contentStyle,
    Flowable.spacer 1 30,
    Flowable.para "Chief Complaint" StyleName.sectionHeader,
    Flowable.para (newline_to_br r.chief_complaint) StyleName.boxStyle,
    Flowable.spacer 1 20 ],
    [ Flowable.para "Consultation Note" StyleName.sectionHeader,
      Flowable.para (newline_to_br r.consultation_note) StyleName.boxStyle,
      Flowable.spacer 1 50,
      Flowable.para ("<b>--- End of Consultation Report ---</b><br/><br/>"
        ++ "<i>This document was electronically generated and is valid without signature.</i>")
        StyleName.endStyle ],
    rfl, rfl, rfl, ?_, ?_, ?_, ?_⟩ <;> simp

/-- C7 (fixed layout): the story's shape is one constant list for every
record — only the substituted text varies — its section headers are
exactly the report's five sections in order, and two runs on the same
record with the same date, timestamp and client IP produce identical
responses. -/
theorem generate_pdf_fixed_layout (r r2 : ConsultationReport) (today : SimpleDate)
    (ts ip : String) :
    (build_story r today ts).map shapeOf =
      [ FlowShape.para StyleName.customTitle, FlowShape.spacer 1 20,
        FlowShape.para StyleName.sectionHeader, FlowShape.spacer 1 5,
        FlowShape.para StyleName.contentStyle, FlowShape.para StyleName.contentStyle,
        FlowShape.spacer 1 20,
        FlowShape.para StyleName.sectionHeader, FlowShape.spacer 1 5,
        FlowShape.para StyleName.contentStyle, FlowShape.para StyleName.contentStyle,
        FlowShape.spacer 1 20,
        FlowShape.para StyleName.sectionHeader, FlowShape.spacer 1 5,
        FlowShape.para StyleName.contentStyle, FlowShape.para StyleName.contentStyle,
        FlowShape.para StyleName.contentStyle, FlowShape.para StyleName.contentStyle,
        FlowShape.spacer 1 30,
        FlowShape.para StyleName.sectionHeader, FlowShape.para StyleName.boxStyle,
        FlowShape.spacer 1 20,
        FlowShape.pageBreak,
        FlowShape.para StyleName.sectionHeader, FlowShape.para StyleName.boxStyle,
        FlowShape.spacer 1 50,
        FlowShape.para StyleName.endStyle ]
    ∧ sectionTitles (build_story r today ts)
      = ["Clinic Information", "Physician Information", "Patient Information",
         "Chief Complaint", "Consultation Note"]
    ∧ (r = r2 → generate_pdf_report r today ts ip = generate_pdf_report r2 today ts ip) := by
  exact ⟨rfl, rfl, fun h => by rw [h]⟩

/-- Concrete instance of `generate_pdf_fixed_layout`: two runs on the
sample record agree. -/
theorem generate_pdf_fixed_layout_witness :
    generate_pdf_report rSample ⟨2026, 10, 12⟩ "ts" "ip"
      = generate_pdf_report rSample ⟨2026, 10, 12⟩ "ts" "ip" :=
  (generate_pdf_fixed_layout rSample rSample ⟨2026, 10, 12⟩ "ts" "ip").2.2 rfl

/-- `%m`/`%d` style fields are two characters wide for the values a
date can hold. -/
theorem pad2_length : ∀ n, n < 100 → (pad2 n).length = 2 := by decide

/-- C9: `pdf_filename` is `CR_<last>_<first>_<YYYYMMDD>.pdf` and the
response's `Content-Disposition` header names exactly this file as an
attachment; the month and day fields of the date are zero-padded to two
digits. -/
theorem pdf_filename_spec (r : ConsultationReport) (today : SimpleDate) (ts ip : String) :
    pdf_filename r
      = "CR_" ++ r.patient_last_name ++ "_" ++ r.patient_first_name ++ "_"
        ++ (toString r.patient_dob.year ++ pad2 r.patient_dob.month ++ pad2 r.patient_dob.day)
        ++ ".pdf"
    ∧ (generate_pdf_report r today ts ip).content_disposition
      = "attachment; filename=\"" ++ pdf_filename r ++ "\""
    ∧ (r.patient_dob.month < 100 → (pad2 r.patient_dob.month).length = 2)
    ∧ (r.patient_dob.day < 100 → (pad2 r.patient_dob.day).length = 2) :=
  ⟨rfl, rfl, fun h => pad2_length _ h, fun h => pad2_length _ h⟩

/-- Concrete instance of `pdf_filename_spec`: the sample record's file
name, with the date rendered as `YYYYMMDD`. -/
theorem pdf_filename_spec_witness :
    pdf_filename rSample = "CR_Lee_Ann_19900503.pdf"
    ∧ (pad2 rSample.patient_dob.month).length = 2 := by
  refine ⟨?_, (pdf_filename_spec rSample ⟨2026, 10, 12⟩ "ts" "ip").2.2.1 (by decide)⟩
  have h := (pdf_filename_spec rSample ⟨2026, 10, 12⟩ "ts" "ip").1
  rw [h]
  decide

/-- C2 as stated is false: a record that has a logo whose file is
absent from `MEDIA_ROOT` gets pages decorated without any logo drawing
call, even though the record has a logo. -/
theorem page_decorations_counterexample :
    rLogo.clinic_logo.isSome = true
    ∧ (add_page_decorations rLogo "media" false "ts" "ip" 1).all
        (fun op => !isImageOp op) = true := by
  decide

/-- C2 amended: every page of the built document carries the full
decoration set — centred clinic name, header rule, footer timestamp/IP
line, page number and footer rule — and the logo drawing call appears
on a page exactly when the record has a logo and its file exists on
disk. -/
theorem page_decorations_spec (r : ConsultationReport) (mr : String) (ex : Bool)
    (ts ip : String) (n : Nat) (page : List DrawOp)
    (hp : page ∈ render_pages r mr ex ts ip n) :
    DrawOp.text r.clinic_name (A4w / 2) (A4h - 50 - 30) "Helvetica-Bold" 18 "#1e40af" ∈ page
    ∧ DrawOp.line 72 (A4h - 50 - 80) (A4w - 72) (A4h - 50 - 80) "#1e40af" 2 ∈ page
    ∧ DrawOp.text ("This report is generated on " ++ ts ++ " from " ++ ip)
        (A4w / 2) 50 "Helvetica" 9 "#666666" ∈ page
    ∧ (∃ pn : Nat, DrawOp.text ("Page " ++ toString pn) (A4w / 2) 35 "Helvetica" 9 "#666666" ∈ page)
    ∧ DrawOp.line 72 65 (A4w - 72) 65 "#cccccc" 1 ∈ page
    ∧ ((∃ op ∈ page, isImageOp op = true) ↔ (r.clinic_logo.isSome = true ∧ ex = true)) := by
  rcases List.mem_map.mp hp with ⟨i, hi, rfl⟩
  simp only [add_page_decorations]
  refine ⟨?_, ?_, ?_, ⟨i + 1, ?_⟩, ?_, ?_⟩
  · simp
  · simp
  · simp
  · simp
  · simp
  · by_cases hl : r.clinic_logo.isSome = true <;> by_cases he : ex = true <;>
      simp [hl, he, isImageOp]

/-- Concrete instance of `page_decorations_spec`: the single page of a
one-page document for the sample record carries the footer rule. -/
theorem page_decorations_spec_witness :
    DrawOp.line 72 65 (A4w - 72) 65 "#cccccc" 1
      ∈ add_page_decorations rSample "media" false "ts" "ip" 1 :=
  (page_decorations_spec rSample "media" false "ts" "ip" 1 _
    (by simp [render_pages])).2.2.2.2.1

/-! ## POST handler (`apps/reports/views.py`) -/

/-- The bound form data of a submission
(`ConsultationReportForm(request.POST, request.FILES)`).
`framework_ok` stands for the checks Django's form scaffolding runs
besides the custom cleaners (required fields, `max_length=255`, date
parsing) — external collaborators per the spec. -/
structure FormData where
  clinic_name : String
  clinic_logo : Option UploadedFile
  physician_name : String
  physician_contact : String
  patient_first_name : String
  patient_last_name : String
  patient_dob : SimpleDate
  patient_contact : String
  chief_complaint : String
  consultation_note : String
  framework_ok : Bool
deriving Repr

/-- Whether an `Except` result is a success. -/
def exceptOk {α β : Type} : Except α β → Bool
  | .ok _ => true
  | .error _ => false

/-- `form.is_valid()`: the scaffolding checks pass and every custom
cleaner of `ConsultationReportForm` succeeds. -/
def form_is_valid (validateEmail : String → Bool) (f : FormData) : Bool :=
  f.framework_ok
    && exceptOk (clean_physician_contact validateEmail f.physician_contact)
    && exceptOk (clean_patient_contact validateEmail f.patient_contact)
    && exceptOk (clean_clinic_logo f.clinic_logo)
    && exceptOk (clean_chief_complaint f.chief_complaint)
    && exceptOk (clean_consultation_note f.consultation_note)

/-- `form.save()`: the persisted `ConsultationReport` built from the
validated form data (the logo field stores the uploaded file's name). -/
def form_save (f : FormData) : ConsultationReport :=
  { clinic_name := f.clinic_name
    clinic_logo := f.clinic_logo.map (·.name)
    physician_name := f.physician_name
    physician_contact := f.physician_contact
    patient_first_name := f.patient_first_name
    patient_last_name := f.patient_last_name
    patient_dob := f.patient_dob
    patient_contact := f.patient_contact
    chief_complaint := f.chief_complaint
    consultation_note := f.consultation_note }

/-- What the handler returns: a PDF download, or the rendered form page
(`reports/index.html`) — with `form_errors` in the context when
validation failed, and with a `messages.error` banner when PDF
generation failed. -/
inductive Response where
  | pdf (resp : PdfResponse)
  | formPage (with_form_errors : Bool) (with_error_message : Bool)
deriving DecidableEq, Repr

/-- True when the handler returned the PDF download. -/
def isPdf : Response → Bool
  | .pdf _ => true
  | _ => false

namespace ConsultationReportView

/-- `ConsultationReportView.post`: validate the form; when valid, save
the report, then try PDF generation — returning the PDF, or, when it
raises (`pdf_error = some e`), an error-message form page; when
invalid, render the form page with the validation errors.  The database
is the list of persisted records; `pdf_error` carries the exception the
`try`/`except` block observes, `none` when generation succeeds. -/
def post (validateEmail : String → Bool) (db : List ConsultationReport) (f : FormData)
    (today : SimpleDate) (timestamp user_ip : String) (pdf_error : Option String) :
    List ConsultationReport × Response :=
  if form_is_valid validateEmail f then
    let report := form_save f
    let db' := db ++ [report]
    match pdf_error with
    | none => (db', Response.pdf (generate_pdf_report report today timestamp user_ip))
    | some _ => (db', Response.formPage false true)
  else
    (db, Response.formPage true false)

end ConsultationReportView

/-- A valid submission used to instantiate the handler theorems. -/
def fSample : FormData :=
  { clinic_name := "Sunrise Clinic"
    clinic_logo := none
    physician_name := "Dr. Smith"
    physician_contact := "0123456789"
    patient_first_name := "Ann"
    patient_last_name := "Lee"
    patient_dob := ⟨1990, 5, 3⟩
    patient_contact := "0123456789"
    chief_complaint := "pain"
    consultation_note := "rest"
    framework_ok := true }

/-- C1 as stated is false: when the form validates but PDF generation
raises, the record is persisted yet no PDF response is returned, so
"persisted and PDF returned iff the form validates" fails on this
input. -/
theorem post_counterexample :
    ¬ ((((ConsultationReportView.post (fun _ => false) [] fSample ⟨2026, 10, 12⟩
            "ts" "ip" (some "boom")).1 = [] ++ [form_save fSample])
        ∧ isPdf (ConsultationReportView.post (fun _ => false) [] fSample ⟨2026, 10, 12⟩
            "ts" "ip" (some "boom")).2 = true)
      ↔ form_is_valid (fun _ => false) fSample = true) := by
  decide

/-- C1 amended: the record is persisted iff the form validates; a PDF
response is returned iff the form validates and PDF generation
succeeds, and it is then the generated report for the saved record;
when the form is invalid nothing is saved and the form page is
re-rendered with the validation errors; when the form is valid but PDF
generation raises, the error-message form page is returned. -/
theorem post_spec (validateEmail : String → Bool) (db : List ConsultationReport)
    (f : FormData) (today : SimpleDate) (ts ip : String) (pe : Option String) :
    ((ConsultationReportView.post validateEmail db f today ts ip pe).1
        = db ++ [form_save f] ↔ form_is_valid validateEmail f = true)
    ∧ (isPdf (ConsultationReportView.post validateEmail db f today ts ip pe).2 = true
        ↔ (form_is_valid validateEmail f = true ∧ pe = none))
    ∧ (form_is_valid validateEmail f = true ∧ pe = none →
        (ConsultationReportView.post validateEmail db f today ts ip pe).2
          = Response.pdf (generate_pdf_report (form_save f) today ts ip))
    ∧ (form_is_valid validateEmail f = false →
        (ConsultationReportView.post validateEmail db f today ts ip pe).1 = db
        ∧ (ConsultationReportView.post validateEmail db f today ts ip pe).2
          = Response.formPage true false) := by
  unfold ConsultationReportView.post
  by_cases hv : form_is_valid validateEmail f = true
  · rw [if_pos hv]
    cases pe with
    | none =>
      refine ⟨⟨fun _ => hv, fun _ => rfl⟩, ?_, fun _ => rfl, fun hf => absurd hv (by simp [hf])⟩
      simp [isPdf, hv]
    | some e =>
      refine ⟨⟨fun _ => hv, fun _ => rfl⟩, ?_, ?_, fun hf => absurd hv (by simp [hf])⟩
      · simp [isPdf]
      · rintro ⟨-, habs⟩
        exact Option.noConfusion habs
  · rw [if_neg hv]
    have hne : ¬ db = db ++ [form_save f] := by
      intro habs
      have := congrArg List.length habs
      simp at this
    refine ⟨⟨fun habs => absurd habs hne, fun habs => absurd habs hv⟩, ?_, ?_, fun _ => ⟨rfl, rfl⟩⟩
    · simp only [isPdf]
      exact ⟨fun habs => Bool.noConfusion habs, fun ⟨habs, _⟩ => absurd habs hv⟩
    · rintro ⟨habs, -⟩
      exact absurd habs hv

/-- Concrete instance of `post_spec`: a valid submission with
successful PDF generation persists the record and returns the PDF. -/
theorem post_spec_witness :
    (ConsultationReportView.post (fun _ => false) [] fSample ⟨2026, 10, 12⟩
        "ts" "ip" none).1 = [] ++ [form_save fSample]
    ∧ isPdf (ConsultationReportView.post (fun _ => false) [] fSample ⟨2026, 10, 12⟩
        "ts" "ip" none).2 = true :=
  ⟨((post_spec (fun _ => false) [] fSample ⟨2026, 10, 12⟩ "ts" "ip" none).1).mpr (by decide),
   ((post_spec (fun _ => false) [] fSample ⟨2026, 10, 12⟩ "ts" "ip" none).2.1).mpr
     ⟨by decide, rfl⟩⟩

/-- C10: when PDF generation raises after a valid submission, the saved
record remains persisted and the handler returns the error-message form
page instead of a PDF. -/
theorem post_pdf_failure_spec (validateEmail : String → Bool)
    (db : List ConsultationReport) (f : FormData) (today : SimpleDate)
    (ts ip e : String) (hv : form_is_valid validateEmail f = true) :
    (ConsultationReportView.post validateEmail db f today ts ip (some e)).1
      = db ++ [form_save f]
    ∧ (ConsultationReportView.post validateEmail db f today ts ip (some e)).2
      = Response.formPage false true := by
  unfold ConsultationReportView.post
  rw [if_pos hv]
  exact ⟨rfl, rfl⟩

/-- Concrete instance of `post_pdf_failure_spec`: the sample valid
submission with a failing PDF build keeps the record and returns the
error-message form page. -/
theorem post_pdf_failure_spec_witness :
    (ConsultationReportView.post (fun _ => false) [] fSample ⟨2026, 10, 12⟩
        "ts" "ip" (some "boom")).1 = [] ++ [form_save fSample]
    ∧ (ConsultationReportView.post (fun _ => false) [] fSample ⟨2026, 10, 12⟩
        "ts" "ip" (some "boom")).2 = Response.formPage false true :=
  post_pdf_failure_spec (fun _ => false) [] fSample ⟨2026, 10, 12⟩ "ts" "ip" "boom"
    (by decide)

end Reports
